import Mathlib

/-!
Shallow embedding of `src/server.py` (real-time relay hub for a two-paddle
ball game): JSON-like payload values with Python dictionary/truthiness
semantics, the snapshot normalizer, the HTTP endpoint handlers for scores,
paddles and checkpoints, the GET router, and the websocket broadcast helper.
Python exceptions are modelled by `Option` (`none` = the operation raised),
Python `None` by `JVal.null`, Python numbers (int and float) by `Rat`.
-/

namespace Server

/-- JSON-like values as produced by `json.loads`; `null` doubles as Python
`None`.  Numbers (Python int and float) are modelled as exact rationals. -/
inductive JVal where
  | null : JVal
  | bool (b : Bool) : JVal
  | num (q : Rat) : JVal
  | str (s : String) : JVal
  | obj (fields : List (String × JVal)) : JVal
  | arr (xs : List JVal) : JVal
deriving Repr

/-- Python truthiness (`bool(v)`): `None`, `False`, `0`, `""`, `{}`, `[]`
are falsy, everything else truthy. -/
def JVal.truthy : JVal → Bool
  | .null => false
  | .bool b => b
  | .num q => !(decide (q = 0))
  | .str s => !(decide (s = ""))
  | .obj fs => !fs.isEmpty
  | .arr xs => !xs.isEmpty

/-- `v is None` test. -/
def JVal.isNull : JVal → Bool
  | .null => true
  | _ => false

/-- A Python dict (JSON object body): association list, first binding wins. -/
abbrev PyDict := List (String × JVal)

/-- `d.get(k)`: the value stored at `k`, or `None` when the key is absent. -/
def dget (d : PyDict) (k : String) : JVal :=
  match d.find? (fun p => p.1 == k) with
  | some p => p.2
  | none => JVal.null

/-- `d.get(k, dflt)`: the stored value (even if it is `None`), else `dflt`. -/
def dgetD (d : PyDict) (k : String) (dflt : JVal) : JVal :=
  match d.find? (fun p => p.1 == k) with
  | some p => p.2
  | none => dflt

/-- `k in d` membership test. -/
def hasKey (d : PyDict) (k : String) : Bool :=
  (d.find? (fun p => p.1 == k)).isSome

/-- Attribute-style `v.get(k)` on an arbitrary value: raises
`AttributeError` (`none`) unless `v` is a dict. -/
def JVal.getAttr : JVal → String → Option JVal
  | .obj fs, k => some (dget fs k)
  | _, _ => none

/-- Attribute-style `v.get(k, dflt)` on an arbitrary value. -/
def JVal.getAttrD : JVal → String → JVal → Option JVal
  | .obj fs, k, dflt => some (dgetD fs k dflt)
  | _, _, _ => none

/-- Python `a or b` on plain values: `a` when truthy, else `b`. -/
def pyOrV (a b : JVal) : JVal :=
  if a.truthy then a else b

/-- Python `a or b` where either operand may raise: short-circuits on a
truthy `a`, and a raised exception propagates. -/
def pyOrE (a b : Option JVal) : Option JVal :=
  match a with
  | none => none
  | some v => if v.truthy then some v else b

/-- Digit-string value, `none` unless non-empty and all decimal digits. -/
def parseDigits : List Char → Option Nat
  | [] => none
  | cs => if cs.all Char.isDigit then some (cs.foldl (fun n c => n * 10 + (c.toNat - 48)) 0) else none

/-- Strip leading and trailing whitespace (`str.strip()`). -/
def trimChars (cs : List Char) : List Char :=
  ((cs.dropWhile Char.isWhitespace).reverse.dropWhile Char.isWhitespace).reverse

/-- Python `int(s)` on a string: optional sign, then decimal digits
(whitespace stripped); raises (`none`) otherwise. -/
def pyStrToInt (s : String) : Option Int :=
  match trimChars s.data with
  | '-' :: rest => (parseDigits rest).map (fun n => -(n : Int))
  | '+' :: rest => (parseDigits rest).map (fun n => (n : Int))
  | cs => (parseDigits cs).map (fun n => (n : Int))

/-- Unsigned decimal literal with an optional fractional part. -/
def parseUnsignedRat (cs : List Char) : Option Rat :=
  let intPart := cs.takeWhile (fun c => c ≠ '.')
  match cs.dropWhile (fun c => c ≠ '.') with
  | [] => (parseDigits intPart).map (fun n => (n : Rat))
  | _ :: frac =>
    if intPart.isEmpty && frac.isEmpty then none
    else
      let ip : Option Nat := if intPart.isEmpty then some 0 else parseDigits intPart
      let fp : Option Nat := if frac.isEmpty then some 0 else parseDigits frac
      match ip, fp with
      | some a, some b => some ((a : Rat) + (b : Rat) / ((10 : Rat) ^ frac.length))
      | _, _ => none

/-- Python `float(s)` on a string: signed decimal literal (exponent forms
not modelled; no claim depends on them). -/
def pyStrToRat (s : String) : Option Rat :=
  match trimChars s.data with
  | '-' :: rest => (parseUnsignedRat rest).map (fun q => -q)
  | '+' :: rest => parseUnsignedRat rest
  | cs => parseUnsignedRat cs

/-- Truncation of a rational toward zero, as Python `int()` on a float. -/
def ratTrunc (q : Rat) : Int :=
  if 0 ≤ q then q.floor else -((-q).floor)

/-- Python `int(v)`: ints/floats truncate, bools map to 0/1, numeric
strings parse; everything else raises (`none`). -/
def pyToInt : JVal → Option Int
  | .num q => some (ratTrunc q)
  | .bool b => some (if b then 1 else 0)
  | .str s => pyStrToInt s
  | _ => none

/-- Python `float(v)`: numbers pass through, bools map to 0/1, numeric
strings parse; everything else raises (`none`). -/
def pyToFloat : JVal → Option Rat
  | .num q => some q
  | .bool b => some (if b then 1 else 0)
  | .str s => pyStrToRat s
  | _ => none

/-! ## Score state and the `POST /api/score` handler -/

/-- `score_state` global: current scores for the two paddles. -/
structure ScoreState where
  ai1 : Int
  ai2 : Int
deriving DecidableEq, Repr

/-- Initial `score_state`: both zero. -/
def initialScores : ScoreState := ⟨0, 0⟩

/-- Outcome of one `POST /api/score` request: HTTP status, the
`score_state` after the request (the handler mutates the global in place,
so a 400 exit can leave a partial update behind), and whether a
`score_update` broadcast was scheduled. -/
structure ScoreResult where
  status : Nat
  scores : ScoreState
  broadcast : Bool
deriving DecidableEq, Repr

/-- The `POST /api/score` branch of `do_POST`: reads `ai1` and `ai2` from
the body, assigns `int(..)` of each supplied field in that order
(returning 400 as soon as a conversion raises), and schedules a
`score_update` broadcast when at least one assignment happened. -/
def post_score (payload : PyDict) (st : ScoreState) : ScoreResult :=
  let ai1 := dget payload "ai1"
  let ai2 := dget payload "ai2"
  if ai1.isNull then
    if ai2.isNull then
      ⟨200, st, false⟩
    else
      match pyToInt ai2 with
      | none => ⟨400, st, false⟩
      | some m => ⟨200, { st with ai2 := m }, true⟩
  else
    match pyToInt ai1 with
    | none => ⟨400, st, false⟩
    | some n =>
      let st1 : ScoreState := { st with ai1 := n }
      if ai2.isNull then
        ⟨200, st1, true⟩
      else
        match pyToInt ai2 with
        | none => ⟨400, st1, false⟩
        | some m => ⟨200, { st1 with ai2 := m }, true⟩

/-! ## The snapshot normalizer `_normalize_record` -/

/-- Canonical snapshot record built by `_normalize_record`.  Field values
are kept as raw payload values (`null` = Python `None` = absent). -/
structure BallRecord where
  timestamp : Int
  position_x : JVal
  position_y : JVal
  velocity_x : JVal
  velocity_y : JVal
  radius : JVal
  speed : JVal
  lastHit : JVal
  paddle1 : JVal
  paddle2 : JVal
  raw : PyDict
deriving Repr

/-- `source.get("timestamp") or source.get("ts") or _now_ms()`; the
current clock reading is passed in explicitly as `now`. -/
def tsOf (now : Int) (source : PyDict) : JVal :=
  pyOrV (dget source "timestamp") (pyOrV (dget source "ts") (JVal.num now))

/-- `source.get("ball") or source.get("ballData") or
source.get("gameState", {}).get("ball") or {}`. -/
def extractBall (source : PyDict) : Option JVal :=
  pyOrE (some (dget source "ball"))
    (pyOrE (some (dget source "ballData"))
      (pyOrE ((dgetD source "gameState" (JVal.obj [])).getAttr "ball")
        (some (JVal.obj []))))

/-- `ball.get(outer, {}).get(inner)`. -/
def nestedGet (ball : JVal) (outer inner : String) : Option JVal :=
  (ball.getAttrD outer (JVal.obj [])).bind (fun w => w.getAttr inner)

/-- `ball.get(flat) or ball.get(o1, {}).get(inner) or
ball.get(o2, {}).get(inner)` — the per-field extraction chain of
`_normalize_record`. -/
def chain3 (ball : JVal) (flat o1 o2 inner : String) : Option JVal :=
  pyOrE (ball.getAttr flat) (pyOrE (nestedGet ball o1 inner) (nestedGet ball o2 inner))

/-- Paddle extraction: only when a `gameState` dict is present, first hit
among `paddle1`/`ai1Paddle`/`paddleLeft` (resp. the `paddle2` aliases). -/
def paddlesOf (source : PyDict) : JVal × JVal :=
  if hasKey source "gameState" then
    match dget source "gameState" with
    | JVal.obj gs =>
      (pyOrV (dget gs "paddle1") (pyOrV (dget gs "ai1Paddle") (dget gs "paddleLeft")),
       pyOrV (dget gs "paddle2") (pyOrV (dget gs "ai2Paddle") (dget gs "paddleRight")))
    | _ => (JVal.null, JVal.null)
  else (JVal.null, JVal.null)

/-- `_normalize_record(source)` with the clock reading `now` made
explicit; `none` models an uncaught exception (e.g. `int(ts)` on a
non-numeric truthy timestamp, or `.get` on a non-dict value). -/
def normalize_record (now : Int) (source : PyDict) : Option BallRecord :=
  (extractBall source).bind fun ball =>
  (pyToInt (tsOf now source)).bind fun ts =>
  (chain3 ball "x" "pos" "position" "x").bind fun px =>
  (chain3 ball "y" "pos" "position" "y").bind fun py =>
  (chain3 ball "velocityX" "velocity" "vel" "x").bind fun vx =>
  (chain3 ball "velocityY" "velocity" "vel" "y").bind fun vy =>
  (ball.getAttr "radius").bind fun rad =>
  (ball.getAttr "speed").bind fun spd =>
  (pyOrE (ball.getAttr "lastHit")
    (pyOrE (ball.getAttr "last_hit") (some (dget source "lastHit")))).bind fun lh =>
  some ⟨ts, px, py, vx, vy, rad, spd, lh, (paddlesOf source).1, (paddlesOf source).2, source⟩

/-! ## The `POST /api/checkpoint-data` / `POST /api/ball-hit` handler -/

/-- Record stored by the HTTP checkpoint branch of `do_POST` (its shape
differs from `_normalize_record`: nested `position`/`velocity` dicts are
flattened here into the four component fields). -/
structure CheckpointRecord where
  timestamp : Int
  position_x : JVal
  position_y : JVal
  velocity_x : JVal
  velocity_y : JVal
  speed : JVal
  lastHit : JVal
  checkpoint : JVal
  gameContext : JVal
  raw_payload : PyDict
deriving Repr

/-- `payload.get("checkpoint", {}).get("timestamp") or
payload.get("timestamp") or _now_ms()`. -/
def cpTs (now : Int) (payload : PyDict) : Option JVal :=
  pyOrE ((dgetD payload "checkpoint" (JVal.obj [])).getAttr "timestamp")
    (pyOrE (some (dget payload "timestamp")) (some (JVal.num now)))

/-- `payload.get("gameState", {}).get("ball") or payload.get("ballState")
or payload.get("ball") or {}` — note the priority order and key names
differ from `extractBall` in `_normalize_record`. -/
def cpBall (payload : PyDict) : Option JVal :=
  pyOrE ((dgetD payload "gameState" (JVal.obj [])).getAttr "ball")
    (pyOrE (some (dget payload "ballState"))
      (pyOrE (some (dget payload "ball")) (some (JVal.obj []))))

/-- `ball.get(flat) or ball.get(outer, {}).get(inner)` — the two-step
field chain used by the HTTP checkpoint branch (no `pos`/`vel` aliases). -/
def chain2 (ball : JVal) (flat outer inner : String) : Option JVal :=
  pyOrE (ball.getAttr flat) (nestedGet ball outer inner)

/-- `payload.get("gameState") or payload.get("game") or {}`. -/
def gameCtxOf (payload : PyDict) : JVal :=
  pyOrV (dget payload "gameState") (pyOrV (dget payload "game") (JVal.obj []))

/-- The record built at lines 217–226 of `do_POST`. -/
def checkpoint_record (now : Int) (payload : PyDict) : Option CheckpointRecord :=
  (cpTs now payload).bind fun tsv =>
  (pyToInt tsv).bind fun ts =>
  (cpBall payload).bind fun ball =>
  (chain2 ball "x" "position" "x").bind fun px =>
  (chain2 ball "y" "position" "y").bind fun py =>
  (chain2 ball "velocityX" "velocity" "x").bind fun vx =>
  (chain2 ball "velocityY" "velocity" "y").bind fun vy =>
  (ball.getAttr "speed").bind fun spd =>
  (pyOrE (ball.getAttr "lastHit") (ball.getAttr "last_hit")).bind fun lh =>
  some ⟨ts, px, py, vx, vy, spd, lh, dget payload "checkpoint", gameCtxOf payload, payload⟩

/-- Resolution of the scores shape inside a checkpoint payload:
`payload.get("scores") or payload.get("score")`, else the legacy
`{"ai1": payload.get("ai1Score"), "ai2": payload.get("ai2Score")}` when
either legacy key is not `None`. -/
def scoresOf (payload : PyDict) : JVal :=
  let scores := pyOrV (dget payload "scores") (dget payload "score")
  if scores.truthy then scores
  else if !(dget payload "ai1Score").isNull || !(dget payload "ai2Score").isNull then
    JVal.obj [("ai1", dget payload "ai1Score"), ("ai2", dget payload "ai2Score")]
  else scores

/-- Score update performed by the checkpoint handler when the resolved
scores value is a dict: assign `int(..)` of each non-`None` field in
order; a conversion error is caught by the surrounding `try`, so the
fields assigned before it keep their new values. -/
def applyCheckpointScores (payload : PyDict) (st : ScoreState) : ScoreState :=
  match scoresOf payload with
  | JVal.obj fs =>
    let a := dget fs "ai1"
    if a.isNull then
      let b := dget fs "ai2"
      if b.isNull then st
      else
        match pyToInt b with
        | none => st
        | some m => { st with ai2 := m }
    else
      match pyToInt a with
      | none => st
      | some n =>
        let st1 : ScoreState := { st with ai1 := n }
        let b := dget fs "ai2"
        if b.isNull then st1
        else
          match pyToInt b with
          | none => st1
          | some m => { st1 with ai2 := m }
  | _ => st

/-! ## Paddle state and the `POST /api/paddle-control` handler -/

/-- Configured default paddle center. -/
def DEFAULT_PADDLE_CENTER : Rat := 350

/-- `paddle_state` global: canonical center y per paddle. -/
structure PaddleState where
  ai1y : Rat
  ai2y : Rat
deriving DecidableEq, Repr

/-- Initial `paddle_state`. -/
def initialPaddles : PaddleState := ⟨DEFAULT_PADDLE_CENTER, DEFAULT_PADDLE_CENTER⟩

/-- Write the selected paddle's `y` (`True` = `"ai1"`). -/
def setPaddleY (st : PaddleState) (a1 : Bool) (y : Rat) : PaddleState :=
  if a1 then { st with ai1y := y } else { st with ai2y := y }

/-- Read the selected paddle's `y`. -/
def getPaddleY (st : PaddleState) (a1 : Bool) : Rat :=
  if a1 then st.ai1y else st.ai2y

/-- Outcome of one `POST /api/paddle-control` request: status, resulting
paddle state, and the `y` carried by the scheduled `paddle_update`
broadcast (`none` = no broadcast). -/
structure PaddleResult where
  status : Nat
  paddles : PaddleState
  broadcastY : Option Rat
deriving DecidableEq, Repr

/-- The `POST /api/paddle-control` branch of `do_POST`: validates the
paddle id, then dispatches on `action` (`set` assigns `float(y)`, `move`
adds `float(dy)` to the current y, `home` resets to the default); invalid
values give 400 without mutation; success broadcasts the new y. -/
def post_paddle_control (payload : PyDict) (st : PaddleState) : PaddleResult :=
  match dget payload "paddle" with
  | JVal.str pid =>
    if pid = "ai1" || pid = "ai2" then
      let a1 := pid = "ai1"
      let cur_y := getPaddleY st a1
      match dget payload "action" with
      | JVal.str act =>
        if act = "set" then
          match pyToFloat (dget payload "y") with
          | none => ⟨400, st, none⟩
          | some y => ⟨200, setPaddleY st a1 y, some y⟩
        else if act = "move" then
          match pyToFloat (dget payload "dy") with
          | none => ⟨400, st, none⟩
          | some dy => ⟨200, setPaddleY st a1 (cur_y + dy), some (cur_y + dy)⟩
        else if act = "home" then
          ⟨200, setPaddleY st a1 DEFAULT_PADDLE_CENTER, some DEFAULT_PADDLE_CENTER⟩
        else ⟨400, st, none⟩
      | _ => ⟨400, st, none⟩
    else ⟨400, st, none⟩
  | _ => ⟨400, st, none⟩

/-! ## GET routing and the checkpoint view -/

/-- The branch of `do_GET` selected for a request path (the handler tests
`path.startswith(..)` in this order). -/
inductive GetRoute where
  | ball
  | checkpoints
  | paddles
  | score
  | notFound
deriving DecidableEq, Repr

/-- `path.startswith(p)`. -/
def pathStartsWith (s p : String) : Bool :=
  p.data.isPrefixOf s.data

/-- The routing cascade of `do_GET`. -/
def route_GET (path : String) : GetRoute :=
  if pathStartsWith path "/api/ball" then GetRoute.ball
  else if pathStartsWith path "/api/checkpoints" then GetRoute.checkpoints
  else if pathStartsWith path "/api/paddles" then GetRoute.paddles
  else if pathStartsWith path "/api/score" then GetRoute.score
  else GetRoute.notFound

/-- The read-ball endpoint body: 404 when no snapshot was ever recorded,
else 200 with the latest snapshot. -/
def ball_GET (latest : Option BallRecord) : Nat × Option BallRecord :=
  match latest with
  | none => (404, none)
  | some r => (200, some r)

/-- `list(checkpoint_history)[-50:]`: the bounded view of the checkpoint
log returned by `GET /api/checkpoints`. -/
def readCheckpoints (hist : List α) : List α :=
  hist.drop (hist.length - 50)

/-- The `GET /api/checkpoints` handler: leaves the log untouched and
returns `{count: len(items), items}` computed from a copy. -/
def checkpoints_GET (hist : List α) : List α × (Nat × List α) :=
  (hist, ((readCheckpoints hist).length, readCheckpoints hist))

/-! ## The websocket broadcast helper `broadcast_message` -/

/-- A registered websocket connection: identity plus the behavior of the
next delivery attempt (`isOpen` = the `ws.open` probe, `sendOk` = whether
`ws.send` would complete without raising). -/
structure Conn where
  cid : Nat
  isOpen : Bool
  sendOk : Bool
deriving DecidableEq, Repr

/-- The delivery loop of `broadcast_message`: walks the snapshot of the
connection set, sends to each open connection, and collects as stale the
closed ones and the ones whose send raised; returns the stale list and
the number of completed sends. -/
def sendLoop : List Conn → List Conn × Nat
  | [] => ([], 0)
  | c :: rest =>
    let r := sendLoop rest
    if c.isOpen then
      if c.sendOk then (r.1, r.2 + 1) else (c :: r.1, r.2)
    else (c :: r.1, r.2)

/-- `broadcast_message`: no-op on an empty set; otherwise delivers per
`sendLoop` and discards every stale connection from the set.  Returns the
pruned connection set and the number of deliveries performed. -/
def broadcast_message (conns : List Conn) : List Conn × Nat :=
  if conns.isEmpty then (conns, 0)
  else
    let r := sendLoop conns
    (conns.filter (fun x => decide (¬ x ∈ r.1)), r.2)

/-! ## Helper lemmas on dictionary lookup -/

theorem hasKey_false_find (d : PyDict) (k : String) (h : hasKey d k = false) :
    d.find? (fun p => p.1 == k) = none := by
  unfold hasKey at h
  exact Option.not_isSome_iff_eq_none.mp (by simp [h])

theorem dget_of_hasKey_false (d : PyDict) (k : String) (h : hasKey d k = false) :
    dget d k = JVal.null := by
  unfold dget
  rw [hasKey_false_find d k h]

theorem dgetD_of_hasKey_false (d : PyDict) (k : String) (v : JVal) (h : hasKey d k = false) :
    dgetD d k v = v := by
  unfold dgetD
  rw [hasKey_false_find d k h]

theorem dgetD_of_dget_obj (d : PyDict) (k : String) (pd : PyDict) (v : JVal)
    (h : dget d k = JVal.obj pd) : dgetD d k v = JVal.obj pd := by
  unfold dget at h
  unfold dgetD
  cases hf : d.find? (fun p => p.1 == k) with
  | none => rw [hf] at h; cases h
  | some pr => rw [hf] at h; exact h

/-! ## C10: GET routing is by path prefix -/

/-- C10: `do_GET` matches paths by prefix, so every path starting with
`"/api/ball"` — including `"/api/ball-hit"`, the POST checkpoint path —
is answered by the read-ball endpoint, which returns the current snapshot
with status 200 or a 404 when none exists. -/
theorem C10_get_routing_by_path_prefix :
    (∀ p : String, pathStartsWith p "/api/ball" = true → route_GET p = GetRoute.ball)
    ∧ route_GET "/api/ball-hit" = GetRoute.ball
    ∧ ball_GET none = (404, none)
    ∧ (∀ r : BallRecord, ball_GET (some r) = (200, some r)) := by
  refine ⟨?_, ?_, rfl, fun r => rfl⟩
  · intro p h
    unfold route_GET
    rw [h]
    rfl
  · rfl

/-- Witness for C10 at the concrete path `"/api/ball-hit"`. -/
theorem C10_witness :
    pathStartsWith "/api/ball-hit" "/api/ball" = true
    ∧ route_GET "/api/ball-hit" = GetRoute.ball := by
  exact ⟨rfl, C10_get_routing_by_path_prefix.1 "/api/ball-hit" rfl⟩

/-! ## C7: the bounded checkpoint view -/

/-- C7: reading the checkpoint view after 60 appends returns exactly the
50 most recently appended records in append order (the i-th returned item
is the (10+i)-th appended one), and the handler leaves the log unchanged. -/
theorem C7_checkpoint_view_last_50 (rs : List α) (h : rs.length = 60) :
    readCheckpoints rs = rs.drop 10
    ∧ (readCheckpoints rs).length = 50
    ∧ (∀ i : Nat, i < 50 → (readCheckpoints rs)[i]? = rs[10 + i]?)
    ∧ checkpoints_GET rs = (rs, (50, rs.drop 10)) := by
  have h1 : readCheckpoints rs = rs.drop 10 := by
    unfold readCheckpoints
    rw [h]
  have h2 : (readCheckpoints rs).length = 50 := by
    rw [h1, List.length_drop, h]
  refine ⟨h1, h2, ?_, ?_⟩
  · intro i _
    rw [h1, List.getElem?_drop]
  · simp [checkpoints_GET, h1, List.length_drop, h]

/-- Witness for C7 on the concrete 60-element log `List.range 60`. -/
theorem C7_witness :
    (List.range 60).length = 60
    ∧ readCheckpoints (List.range 60) = (List.range 60).drop 10 := by
  exact ⟨by simp, (C7_checkpoint_view_last_50 (List.range 60) (by simp)).1⟩

/-! ## C1: write-score error handling -/

/-- C1 counterexample: a body whose `ai1` is a valid integer and whose
`ai2` is non-numeric gets status 400, yet the stored scores change
(`ai1` is assigned before the `ai2` conversion fails). -/
theorem C1_counterexample :
    (post_score [("ai1", JVal.num 5), ("ai2", JVal.str "x")] ⟨0, 0⟩).status = 400
    ∧ (post_score [("ai1", JVal.num 5), ("ai2", JVal.str "x")] ⟨0, 0⟩).scores ≠ ⟨0, 0⟩ := by
  constructor
  · rfl
  · decide

/-- C1 amended: a non-numeric supplied value makes the write fail with
status 400 and no broadcast; the score state is left unchanged exactly
when the first field processed is the failing one (`ai1` invalid, or
`ai1` absent and `ai2` invalid), while a valid `ai1` followed by an
invalid `ai2` leaves the new `ai1` value behind. -/
theorem C1_invalid_value_400 (st : ScoreState) (p : PyDict) :
    ((dget p "ai1").isNull = false → pyToInt (dget p "ai1") = none →
      post_score p st = ⟨400, st, false⟩)
    ∧ ((dget p "ai1").isNull = true → (dget p "ai2").isNull = false →
        pyToInt (dget p "ai2") = none → post_score p st = ⟨400, st, false⟩)
    ∧ (∀ n : Int, (dget p "ai1").isNull = false → pyToInt (dget p "ai1") = some n →
        (dget p "ai2").isNull = false → pyToInt (dget p "ai2") = none →
        post_score p st = ⟨400, { st with ai1 := n }, false⟩) := by
  refine ⟨?_, ?_, ?_⟩
  · intro h1 h2
    simp only [post_score, h1, h2, Bool.false_eq_true, if_false]
  · intro h1 h2 h3
    simp only [post_score, h1, h2, h3, if_true, Bool.false_eq_true, if_false]
  · intro n h1 h2 h3 h4
    simp only [post_score, h1, h2, h3, h4, Bool.false_eq_true, if_false]

/-- Witness for C1's amended theorem: the concrete partial-mutation run. -/
theorem C1_witness :
    post_score [("ai1", JVal.num 5), ("ai2", JVal.str "x")] ⟨0, 0⟩ = ⟨400, ⟨5, 0⟩, false⟩ := by
  exact (C1_invalid_value_400 ⟨0, 0⟩ [("ai1", JVal.num 5), ("ai2", JVal.str "x")]).2.2 5
    rfl rfl rfl rfl

/-! ## C8: when the score write broadcasts -/

/-- C8 counterexample: supplying `ai1` equal to the current score is a
successful write that changes no value, yet a `score_update` broadcast is
scheduled. -/
theorem C8_counterexample :
    post_score [("ai1", JVal.num 3)] ⟨3, 0⟩ = ⟨200, ⟨3, 0⟩, true⟩ := by
  decide

/-- C8 amended: the write-score request schedules a `score_update`
broadcast if and only if it succeeds (status 200) and at least one score
field was supplied in the body — even when the supplied value equals the
current score; a successful write supplying no field broadcasts nothing. -/
theorem C8_broadcast_iff_assigned (p : PyDict) (st : ScoreState) :
    (post_score p st).broadcast = true ↔
      ((post_score p st).status = 200
        ∧ ((dget p "ai1").isNull = false ∨ (dget p "ai2").isNull = false)) := by
  unfold post_score
  cases h1 : (dget p "ai1").isNull <;> cases h2 : (dget p "ai2").isNull <;>
    simp only [h1, h2] <;>
    cases hp : pyToInt (dget p "ai1") <;> cases hq : pyToInt (dget p "ai2") <;> simp

/-! ## C9: score sign invariant -/

/-- A score-mutating request: a `POST /api/score` body or a
`POST /api/checkpoint-data` / `/api/ball-hit` body. -/
inductive ScoreOp where
  | score (p : PyDict)
  | checkpoint (p : PyDict)

/-- Score-state effect of one request. -/
def applyScoreOp (st : ScoreState) (op : ScoreOp) : ScoreState :=
  match op with
  | .score p => (post_score p st).scores
  | .checkpoint p => applyCheckpointScores p st

/-- Score state after a sequence of requests, from the initial state. -/
def runScoreOps (ops : List ScoreOp) : ScoreState :=
  ops.foldl applyScoreOp initialScores

/-- Every integer the value `v` can contribute to a score is ≥ 0. -/
def NonNegField (v : JVal) : Prop :=
  ∀ n : Int, pyToInt v = some n → 0 ≤ n

/-- All score values a request body can assign are non-negative. -/
def NonNegOp : ScoreOp → Prop
  | .score p => NonNegField (dget p "ai1") ∧ NonNegField (dget p "ai2")
  | .checkpoint p =>
    ∀ fs : PyDict, scoresOf p = JVal.obj fs →
      NonNegField (dget fs "ai1") ∧ NonNegField (dget fs "ai2")

theorem post_score_nonneg (p : PyDict) (st : ScoreState)
    (h : NonNegField (dget p "ai1") ∧ NonNegField (dget p "ai2"))
    (h1 : 0 ≤ st.ai1) (h2 : 0 ≤ st.ai2) :
    0 ≤ (post_score p st).scores.ai1 ∧ 0 ≤ (post_score p st).scores.ai2 := by
  unfold post_score
  cases ha : (dget p "ai1").isNull <;> cases hb : (dget p "ai2").isNull <;>
    simp only [ha, hb] <;>
    cases hp : pyToInt (dget p "ai1") <;> cases hq : pyToInt (dget p "ai2") <;>
    simp_all [NonNegField]

theorem applyCheckpointScores_nonneg (p : PyDict) (st : ScoreState)
    (h : ∀ fs : PyDict, scoresOf p = JVal.obj fs →
      NonNegField (dget fs "ai1") ∧ NonNegField (dget fs "ai2"))
    (h1 : 0 ≤ st.ai1) (h2 : 0 ≤ st.ai2) :
    0 ≤ (applyCheckpointScores p st).ai1 ∧ 0 ≤ (applyCheckpointScores p st).ai2 := by
  unfold applyCheckpointScores
  cases hs : scoresOf p with
  | obj fs =>
    have hfs := h fs hs
    cases ha : (dget fs "ai1").isNull <;> cases hb : (dget fs "ai2").isNull <;>
      simp only [ha, hb] <;>
      cases hp : pyToInt (dget fs "ai1") <;> cases hq : pyToInt (dget fs "ai2") <;>
      simp_all [NonNegField]
  | null => exact ⟨h1, h2⟩
  | bool b => exact ⟨h1, h2⟩
  | num q => exact ⟨h1, h2⟩
  | str s => exact ⟨h1, h2⟩
  | arr xs => exact ⟨h1, h2⟩

theorem runScoreOps_aux (ops : List ScoreOp) (st : ScoreState)
    (hops : ∀ op ∈ ops, NonNegOp op) (h1 : 0 ≤ st.ai1) (h2 : 0 ≤ st.ai2) :
    0 ≤ (ops.foldl applyScoreOp st).ai1 ∧ 0 ≤ (ops.foldl applyScoreOp st).ai2 := by
  induction ops generalizing st with
  | nil => exact ⟨h1, h2⟩
  | cons op rest ih =>
    have hop := hops op (List.mem_cons_self op rest)
    have hrest : ∀ o ∈ rest, NonNegOp o := fun o ho => hops o (List.mem_cons_of_mem op ho)
    cases op with
    | score p =>
      have := post_score_nonneg p st hop h1 h2
      exact ih ((post_score p st).scores) hrest this.1 this.2
    | checkpoint p =>
      have := applyCheckpointScores_nonneg p st hop h1 h2
      exact ih (applyCheckpointScores p st) hrest this.1 this.2

/-- C9 counterexample: a single write-score request carrying `-5` is
accepted with status 200 and drives `ai1` below zero. -/
theorem C9_counterexample :
    post_score [("ai1", JVal.num (-5))] initialScores = ⟨200, ⟨-5, 0⟩, true⟩
    ∧ (post_score [("ai1", JVal.num (-5))] initialScores).scores.ai1 < 0 := by
  constructor
  · decide
  · decide

/-- C9 amended: the endpoints assign any parsed integer, including
negative ones, so non-negativity is not an invariant of the code; it
holds exactly as long as every value supplied to write-score or
write-checkpoint parses to a non-negative integer. -/
theorem C9_nonneg_if_inputs_nonneg (ops : List ScoreOp)
    (hops : ∀ op ∈ ops, NonNegOp op) :
    0 ≤ (runScoreOps ops).ai1 ∧ 0 ≤ (runScoreOps ops).ai2 := by
  exact runScoreOps_aux ops initialScores hops le_rfl le_rfl

/-- Witness for C9's amended theorem: a concrete two-request run. -/
theorem C9_witness :
    0 ≤ (runScoreOps [ScoreOp.score [("ai1", JVal.num 2)],
      ScoreOp.checkpoint [("scores", JVal.obj [("ai2", JVal.num 7)])]]).ai1 := by
  refine (C9_nonneg_if_inputs_nonneg _ ?_).1
  intro op hop
  simp only [List.mem_cons, List.mem_singleton] at hop
  rcases hop with rfl | rfl | h
  · refine ⟨fun n hn => ?_, fun n hn => ?_⟩
    · rw [show pyToInt (dget [("ai1", JVal.num 2)] "ai1") = some 2 from by decide] at hn
      injection hn with hn
      omega
    · rw [show pyToInt (dget [("ai1", JVal.num 2)] "ai2") = none from rfl] at hn
      cases hn
  · intro fs hfs
    rw [show scoresOf [("scores", JVal.obj [("ai2", JVal.num 7)])]
        = JVal.obj [("ai2", JVal.num 7)] from rfl] at hfs
    injection hfs with hfs
    subst hfs
    refine ⟨fun n hn => ?_, fun n hn => ?_⟩
    · rw [show pyToInt (dget [("ai2", JVal.num 7)] "ai1") = none from rfl] at hn
      cases hn
    · rw [show pyToInt (dget [("ai2", JVal.num 7)] "ai2") = some 7 from by decide] at hn
      injection hn with hn
      omega
  · cases h

/-! ## C4: broadcast delivery and pruning -/

theorem sendLoop_eq (l : List Conn) :
    sendLoop l = (l.filter (fun c => !(c.isOpen && c.sendOk)),
      (l.filter (fun c => c.isOpen && c.sendOk)).length) := by
  induction l with
  | nil => rfl
  | cons c rest ih =>
    cases hc : c.isOpen <;> cases hs : c.sendOk <;>
      simp [sendLoop, ih, hc, hs, List.filter_cons]

/-- C4: broadcasting to a non-empty registered set in which exactly one
connection's delivery raises performs N-1 deliveries, removes exactly the
failing connection (final registry = the other N-1 connections, size
N-1), surfaces nothing to the caller, and on the empty set delivers
nothing and reports 0 deliveries. -/
theorem C4_broadcast_prunes_failure (l1 l2 : List Conn) (c : Conn)
    (hall : ∀ x ∈ l1 ++ l2, x.isOpen = true ∧ x.sendOk = true)
    (hopen : c.isOpen = true) (hfail : c.sendOk = false) :
    broadcast_message (l1 ++ c :: l2) = (l1 ++ l2, (l1 ++ l2).length)
    ∧ c ∉ l1 ++ l2
    ∧ (l1 ++ l2).length = (l1 ++ c :: l2).length - 1
    ∧ broadcast_message [] = ([], 0) := by
  have hnc : c ∉ l1 ++ l2 := by
    intro hc
    rw [(hall c hc).2] at hfail
    cases hfail
  have hstale : (l1 ++ c :: l2).filter (fun x => !(x.isOpen && x.sendOk)) = [c] := by
    rw [List.filter_append, List.filter_cons]
    rw [List.filter_eq_nil_iff.mpr (fun a ha => by simp [(hall a (List.mem_append_left l2 ha)).1, (hall a (List.mem_append_left l2 ha)).2]),
      List.filter_eq_nil_iff.mpr (fun a ha => by simp [(hall a (List.mem_append_right l1 ha)).1, (hall a (List.mem_append_right l1 ha)).2])]
    simp [hopen, hfail]
  have hkeep : (l1 ++ c :: l2).filter (fun x => decide (¬ x ∈ [c])) = l1 ++ l2 := by
    rw [List.filter_append, List.filter_cons]
    have hne : ∀ a ∈ l1 ++ l2, (decide (¬ a ∈ [c])) = true := by
      intro a ha
      simp only [List.mem_singleton, decide_eq_true_eq]
      intro rfl_eq
      exact hnc (rfl_eq ▸ ha)
    rw [List.filter_eq_self.mpr (fun a ha => hne a (List.mem_append_left l2 ha)),
      List.filter_eq_self.mpr (fun a ha => hne a (List.mem_append_right l1 ha))]
    simp
  have hempty : (l1 ++ c :: l2).isEmpty = false := by
    cases l1 <;> rfl
  refine ⟨?_, hnc, by simp, rfl⟩
  unfold broadcast_message
  rw [hempty]
  simp only [Bool.false_eq_true, if_false, sendLoop_eq, hstale, hkeep]
  rw [show (l1 ++ c :: l2).filter (fun c => c.isOpen && c.sendOk) = l1 ++ l2 from ?_]
  · rw [List.filter_append, List.filter_cons]
    rw [List.filter_eq_self.mpr (fun a ha => by simp [(hall a (List.mem_append_left l2 ha)).1, (hall a (List.mem_append_left l2 ha)).2]),
      List.filter_eq_self.mpr (fun a ha => by simp [(hall a (List.mem_append_right l1 ha)).1, (hall a (List.mem_append_right l1 ha)).2])]
    simp [hopen, hfail]

/-- Witness for C4: three open connections, the middle send raising. -/
theorem C4_witness :
    broadcast_message [⟨1, true, true⟩, ⟨2, true, false⟩, ⟨3, true, true⟩]
      = ([⟨1, true, true⟩, ⟨3, true, true⟩], 2) := by
  exact (C4_broadcast_prunes_failure [⟨1, true, true⟩] [⟨3, true, true⟩] ⟨2, true, false⟩
    (by decide) rfl rfl).1

/-! ## C6: move semantics of the paddle controller -/

/-- The `POST /api/paddle-control` body for a `move` by `d`. -/
def movePayload (pid : String) (d : Rat) : PyDict :=
  [("paddle", JVal.str pid), ("action", JVal.str "move"), ("dy", JVal.num d)]

/-- C6: a `move` by `d` on either valid paddle id yields position
`y₀ + d` (leaving the other paddle untouched, with a 200 response and a
`paddle_update` broadcast of the new y), and two consecutive moves by
`d₁` then `d₂` end at the same position as one move by `d₁ + d₂`.
Numbers are modelled as exact rationals. -/
theorem C6_move_adds_delta (st : PaddleState) (d d1 d2 : Rat) :
    post_paddle_control (movePayload "ai1" d) st
      = ⟨200, { st with ai1y := st.ai1y + d }, some (st.ai1y + d)⟩
    ∧ post_paddle_control (movePayload "ai2" d) st
      = ⟨200, { st with ai2y := st.ai2y + d }, some (st.ai2y + d)⟩
    ∧ (post_paddle_control (movePayload "ai1" d2)
        (post_paddle_control (movePayload "ai1" d1) st).paddles).paddles
      = (post_paddle_control (movePayload "ai1" (d1 + d2)) st).paddles
    ∧ (post_paddle_control (movePayload "ai2" d2)
        (post_paddle_control (movePayload "ai2" d1) st).paddles).paddles
      = (post_paddle_control (movePayload "ai2" (d1 + d2)) st).paddles := by
  refine ⟨rfl, rfl, ?_, ?_⟩
  · show PaddleState.mk (st.ai1y + d1 + d2) st.ai2y = PaddleState.mk (st.ai1y + (d1 + d2)) st.ai2y
    rw [add_assoc]
  · show PaddleState.mk st.ai1y (st.ai2y + d1 + d2) = PaddleState.mk st.ai1y (st.ai2y + (d1 + d2))
    rw [add_assoc]

/-! ## C3: normalizer idempotence -/

/-- The payload carries a truthy explicit `timestamp` or `ts` field, so
the normalizer never falls back to the clock. -/
def hasExplicitTs (src : PyDict) : Bool :=
  (dget src "timestamp").truthy || (dget src "ts").truthy

theorem normalize_record_raw (now : Int) (src : PyDict) (r : BallRecord)
    (h : normalize_record now src = some r) : r.raw = src := by
  simp only [normalize_record, Option.bind_eq_some, Option.some.injEq] at h
  obtain ⟨ball, -, ts, -, px, -, py, -, vx, -, vy, -, rad, -, spd, -, lh, -, hr⟩ := h
  subst hr
  rfl

theorem tsOf_indep (now1 now2 : Int) (src : PyDict) (h : hasExplicitTs src = true) :
    tsOf now2 src = tsOf now1 src := by
  unfold hasExplicitTs at h
  unfold tsOf pyOrV
  cases h1 : (dget src "timestamp").truthy with
  | true => simp [h1]
  | false =>
    rw [h1] at h
    simp only [Bool.false_or] at h
    simp [h1, h]

theorem normalize_now_indep (now1 now2 : Int) (src : PyDict) (h : hasExplicitTs src = true) :
    normalize_record now2 src = normalize_record now1 src := by
  simp only [normalize_record, tsOf_indep now1 now2 src h]

/-- C3 counterexample: for the payload `{}` (no `timestamp`/`ts` field),
the normalized record's `raw` is the payload itself, and renormalizing it
at the next clock value yields a different record (the timestamp is the
fresh clock reading). -/
theorem C3_counterexample :
    (normalize_record 1 []).map BallRecord.raw = some []
    ∧ normalize_record 2 [] ≠ normalize_record 1 [] := by
  refine ⟨rfl, fun h => ?_⟩
  have h2 := congrArg (Option.map BallRecord.timestamp) h
  rw [show (normalize_record 2 []).map BallRecord.timestamp = some 2 from by decide,
    show (normalize_record 1 []).map BallRecord.timestamp = some 1 from by decide] at h2
  injection h2 with h2
  cases h2

/-- C3 amended: `normalize(normalize(x).raw)` equals `normalize(x)`
whenever the payload carries a truthy explicit `timestamp`/`ts` field or
the two normalizations observe the same clock reading; for payloads with
neither field the records differ in the timestamp when the clock has
advanced. -/
theorem C3_idempotent_with_explicit_ts (now1 now2 : Int) (src : PyDict) (r : BallRecord)
    (h : normalize_record now1 src = some r)
    (hts : hasExplicitTs src = true ∨ now1 = now2) :
    normalize_record now2 r.raw = some r := by
  rw [normalize_record_raw now1 src r h]
  rcases hts with hts | rfl
  · rw [normalize_now_indep now1 now2 src hts]
    exact h
  · exact h

/-- Witness for C3's amended theorem: a payload with an explicit `ts`,
normalized at clock 1 and renormalized at clock 2. -/
theorem C3_witness :
    normalize_record 2
        [("ts", JVal.num 9)]
      = some ⟨9, JVal.null, JVal.null, JVal.null, JVal.null, JVal.null, JVal.null,
          JVal.null, JVal.null, JVal.null, [("ts", JVal.num 9)]⟩ := by
  exact C3_idempotent_with_explicit_ts 1 2 [("ts", JVal.num 9)]
    ⟨9, JVal.null, JVal.null, JVal.null, JVal.null, JVal.null, JVal.null,
      JVal.null, JVal.null, JVal.null, [("ts", JVal.num 9)]⟩ rfl (Or.inl rfl)

/-! ## C2: per-field extraction by the normalizer -/

/-- What the normalizer's per-field chain actually guarantees for a dict
ball sub-object `bd`: a truthy flat field wins; when all three locations
are absent the field is absent (`null`); when the flat field is falsy a
truthy nested field is taken — in particular a present flat `0` is
skipped like an absent field. -/
def FieldChainSpec (bd : PyDict) (flat o1 o2 inner : String) (res : JVal) : Prop :=
  ((dget bd flat).truthy = true → res = dget bd flat)
  ∧ ((dget bd flat).truthy = false → hasKey bd o1 = false → hasKey bd o2 = false →
      res = JVal.null)
  ∧ (∀ pd : PyDict, (dget bd flat).truthy = false → dget bd o1 = JVal.obj pd →
      (dget pd inner).truthy = true → res = dget pd inner)
  ∧ (∀ pd : PyDict, (dget bd flat).truthy = false → hasKey bd o1 = false →
      dget bd o2 = JVal.obj pd → (dget pd inner).truthy = true → res = dget pd inner)
  ∧ (dget bd flat = JVal.num 0 → hasKey bd o1 = false → hasKey bd o2 = false →
      res = JVal.null)

theorem nestedGet_absent (bd : PyDict) (o inner : String) (h : hasKey bd o = false) :
    nestedGet (JVal.obj bd) o inner = some JVal.null := by
  simp only [nestedGet, JVal.getAttrD, dgetD_of_hasKey_false bd o (JVal.obj []) h,
    Option.some_bind, JVal.getAttr]
  rfl

theorem nestedGet_obj (bd pd : PyDict) (o inner : String) (h : dget bd o = JVal.obj pd) :
    nestedGet (JVal.obj bd) o inner = some (dget pd inner) := by
  simp only [nestedGet, JVal.getAttrD, dgetD_of_dget_obj bd o pd (JVal.obj []) h,
    Option.some_bind, JVal.getAttr]

theorem chain3_eval_truthy (bd : PyDict) (flat o1 o2 inner : String)
    (htr : (dget bd flat).truthy = true) :
    chain3 (JVal.obj bd) flat o1 o2 inner = some (dget bd flat) := by
  simp [chain3, pyOrE, JVal.getAttr, htr]

theorem chain3_eval_falsy (bd : PyDict) (flat o1 o2 inner : String)
    (hfl : (dget bd flat).truthy = false) :
    chain3 (JVal.obj bd) flat o1 o2 inner
      = pyOrE (nestedGet (JVal.obj bd) o1 inner) (nestedGet (JVal.obj bd) o2 inner) := by
  simp [chain3, pyOrE, JVal.getAttr, hfl]

theorem chain3_spec (bd : PyDict) (flat o1 o2 inner : String) (res : JVal)
    (h : chain3 (JVal.obj bd) flat o1 o2 inner = some res) :
    FieldChainSpec bd flat o1 o2 inner res := by
  refine ⟨?_, ?_, ?_, ?_, ?_⟩
  · intro htr
    rw [chain3_eval_truthy bd flat o1 o2 inner htr] at h
    injection h with h
    exact h.symm
  · intro hfl h1 h2
    rw [chain3_eval_falsy bd flat o1 o2 inner hfl, nestedGet_absent bd o1 inner h1,
      nestedGet_absent bd o2 inner h2] at h
    simp only [pyOrE, JVal.truthy, Bool.false_eq_true, if_false] at h
    injection h with h
    exact h.symm
  · intro pd hfl hpd htr
    rw [chain3_eval_falsy bd flat o1 o2 inner hfl, nestedGet_obj bd pd o1 inner hpd] at h
    simp only [pyOrE, htr, if_true] at h
    injection h with h
    exact h.symm
  · intro pd hfl h1 hpd htr
    rw [chain3_eval_falsy bd flat o1 o2 inner hfl, nestedGet_absent bd o1 inner h1,
      nestedGet_obj bd pd o2 inner hpd] at h
    simp only [pyOrE, JVal.truthy, Bool.false_eq_true, if_false, htr, if_true] at h
    injection h with h
    exact h.symm
  · intro hz h1 h2
    have hfl : (dget bd flat).truthy = false := by
      rw [hz]
      rfl
    rw [chain3_eval_falsy bd flat o1 o2 inner hfl, nestedGet_absent bd o1 inner h1,
      nestedGet_absent bd o2 inner h2] at h
    simp only [pyOrE, JVal.truthy, Bool.false_eq_true, if_false] at h
    injection h with h
    exact h.symm

theorem normalize_record_fields (now : Int) (src : PyDict) (r : BallRecord)
    (h : normalize_record now src = some r) :
    ∃ ball : JVal, extractBall src = some ball
      ∧ chain3 ball "x" "pos" "position" "x" = some r.position_x
      ∧ chain3 ball "y" "pos" "position" "y" = some r.position_y
      ∧ chain3 ball "velocityX" "velocity" "vel" "x" = some r.velocity_x
      ∧ chain3 ball "velocityY" "velocity" "vel" "y" = some r.velocity_y := by
  simp only [normalize_record, Option.bind_eq_some, Option.some.injEq] at h
  obtain ⟨ball, hb, ts, hts, px, hpx, py, hpy, vx, hvx, vy, hvy, rad, -, spd, -, lh, -, hr⟩ := h
  subst hr
  exact ⟨ball, hb, hpx, hpy, hvx, hvy⟩

/-- C2 counterexample: in `{"ball": {"x": 0}}` the flat `x` field is
present with value `0`, yet the normalized record's `position_x` is
absent (`null`): a present zero is not preserved. -/
theorem C2_counterexample :
    dget [("x", JVal.num 0)] "x" = JVal.num 0
    ∧ (normalize_record 100 [("ball", JVal.obj [("x", JVal.num 0)])]).map BallRecord.position_x
        = some JVal.null := by
  exact ⟨rfl, rfl⟩

/-- C2 amended: for every payload whose ball sub-object resolves to a
dict, each position/velocity field follows the flat-then-nested priority
chain under Python truthiness — a truthy flat field wins, full absence
yields absence, and a falsy present value (such as `0`) is skipped in
favor of a truthy nested field or absence. -/
theorem C2_field_extraction (now : Int) (src : PyDict) (r : BallRecord) (bd : PyDict)
    (h : normalize_record now src = some r)
    (hb : extractBall src = some (JVal.obj bd)) :
    FieldChainSpec bd "x" "pos" "position" "x" r.position_x
    ∧ FieldChainSpec bd "y" "pos" "position" "y" r.position_y
    ∧ FieldChainSpec bd "velocityX" "velocity" "vel" "x" r.velocity_x
    ∧ FieldChainSpec bd "velocityY" "velocity" "vel" "y" r.velocity_y := by
  obtain ⟨ball, hb2, hx, hy, hvx, hvy⟩ := normalize_record_fields now src r h
  rw [hb] at hb2
  injection hb2 with hb2
  subst hb2
  exact ⟨chain3_spec bd "x" "pos" "position" "x" r.position_x hx,
    chain3_spec bd "y" "pos" "position" "y" r.position_y hy,
    chain3_spec bd "velocityX" "velocity" "vel" "x" r.velocity_x hvx,
    chain3_spec bd "velocityY" "velocity" "vel" "y" r.velocity_y hvy⟩

/-- Witness for C2's amended theorem on `{"ball": {"x": 3}}`. -/
theorem C2_witness :
    FieldChainSpec [("x", JVal.num 3)] "x" "pos" "position" "x" (JVal.num 3) := by
  exact (C2_field_extraction 7 [("ball", JVal.obj [("x", JVal.num 3)])]
    ⟨7, JVal.num 3, JVal.null, JVal.null, JVal.null, JVal.null, JVal.null, JVal.null,
      JVal.null, JVal.null, [("ball", JVal.obj [("x", JVal.num 3)])]⟩
    [("x", JVal.num 3)] rfl rfl).1

/-! ## C5: ball extraction order of the write-checkpoint endpoint -/

/-- C5 counterexample: for a payload carrying both `ball` and
`gameState.ball`, the stored checkpoint record takes its position from
`gameState.ball` (x = 2) while the normalizer would take it from `ball`
(x = 1): the endpoint's priority order is not the normalizer's. -/
theorem C5_counterexample :
    (checkpoint_record 5 [("ball", JVal.obj [("x", JVal.num 1)]),
        ("gameState", JVal.obj [("ball", JVal.obj [("x", JVal.num 2)])])]).map
        CheckpointRecord.position_x = some (JVal.num 2)
    ∧ (normalize_record 5 [("ball", JVal.obj [("x", JVal.num 1)]),
        ("gameState", JVal.obj [("ball", JVal.obj [("x", JVal.num 2)])])]).map
        BallRecord.position_x = some (JVal.num 1)
    ∧ JVal.num 2 ≠ JVal.num 1 := by
  refine ⟨rfl, rfl, fun h => ?_⟩
  injection h with h
  exact absurd h (by decide)

/-- C5 amended: the write-checkpoint endpoint extracts the ball
sub-object with priority `gameState.ball`, else `ballState`, else `ball`
(not the normalizer's `ball`/`ballData`/`gameState.ball` order); its
extraction agrees with the normalizer's whenever the payload carries none
of the keys `gameState`, `ballState`, `ballData` — e.g. when `ball` is
the only ball-carrying key. -/
theorem C5_cpball_priority :
    (∀ (p : PyDict) (gs : PyDict), dget p "gameState" = JVal.obj gs →
        (dget gs "ball").truthy = true → cpBall p = some (dget gs "ball"))
    ∧ (∀ p : PyDict, hasKey p "gameState" = false → hasKey p "ballState" = false →
        hasKey p "ballData" = false → cpBall p = extractBall p) := by
  constructor
  · intro p gs hgs htr
    simp [cpBall, dgetD_of_dget_obj p "gameState" gs (JVal.obj []) hgs, JVal.getAttr,
      pyOrE, htr]
  · intro p h1 h2 h3
    simp only [cpBall, extractBall, dgetD_of_hasKey_false p "gameState" (JVal.obj []) h1,
      dget_of_hasKey_false p "ballState" h2, dget_of_hasKey_false p "ballData" h3,
      JVal.getAttr, pyOrE]
    cases htr : (dget p "ball").truthy <;> simp [htr, dget, JVal.truthy]

/-- Witness for C5's amended theorem: a payload whose only ball-carrying
key is `ball`, where both extractions agree. -/
theorem C5_witness :
    cpBall [("ball", JVal.obj [("x", JVal.num 1)])]
      = extractBall [("ball", JVal.obj [("x", JVal.num 1)])] := by
  exact C5_cpball_priority.2 [("ball", JVal.obj [("x", JVal.num 1)])] rfl rfl rfl

end Server
